import Mathlib

/-!
Verification of the task/measurement extension model defined in
examples/tutorials/nb_python/Habitat2_Quickstart.py.

The file embeds, as Lean definitions, the state read by the custom task and
measures that the notebook registers (NavPickTaskV1, DistanceToTargetObject,
NavPickReward, NavPickSuccess), the measurement set owned by the task, the
measurement part of the nav-pick task configuration, and the episode step
loop, and proves the specified properties about them.  numpy float vectors
are idealized as triples of real numbers; Python exceptions are modelled by
an Except monad.
-/

namespace Habitat2Quickstart

/-- A 3D position vector (a numpy 3-vector, idealized over the reals). -/
abbrev Vec3 := ℝ × ℝ × ℝ

/-- Componentwise difference of two 3-vectors (numpy array subtraction). -/
def sub3 (p q : Vec3) : Vec3 :=
  (p.1 - q.1, p.2.1 - q.2.1, p.2.2 - q.2.2)

/-- Euclidean norm of a 3-vector: np.linalg.norm(v, ord=2, axis=-1) applied
to a single 3-vector. -/
noncomputable def l2_norm (v : Vec3) : ℝ :=
  Real.sqrt (v.1 ^ 2 + v.2.1 ^ 2 + v.2.2 ^ 2)

/-- The value held in a measure's _metric slot.  The habitat Measure base
class initializes _metric to None (unset); the measures of this file store
a float (num) or a bool. -/
inductive MetricVal where
  | unset : MetricVal
  | num : ℝ → MetricVal
  | bool : Bool → MetricVal

/-- The Python exceptions the embedded code can raise. -/
inductive PyError where
  | dependencyError (measure_id : String) (missing : String)
  | indexError
  | keyError (k : String)
  | typeError
  | valueError (msg : String)
  | assertionError (msg : String)
deriving DecidableEq

/-- The simulator state read by the embedded task and measures: the robot
end-effector translation (robot.ee_transform.translation), the target index
array (first component of get_targets), the scene positions
(get_scene_pos), the absolute scene object ids (scene_obj_ids), the grasp
manager's snapped object id (grasp_mgr.snap_idx, None while nothing is
held), the number of targets (get_n_targets), and the robot base position
(robot.base_pos). -/
structure SimState where
  ee_translation : Vec3
  target_idxs : List ℕ
  scene_pos : List Vec3
  scene_obj_ids : List ℤ
  grasp_snap_idx : Option ℤ
  n_targets : ℕ
  robot_base_pos : Vec3

/-- The task state read by the measures: the index of the target object
chosen by NavPickTaskV1.reset. -/
structure TaskState where
  target_object_index : ℕ

/-- The measurement set owned by the task (task.measurements.measures):
the measures keyed by uuid, each holding its current _metric value, in
declaration order. -/
abbrev MeasureSet := List (String × MetricVal)

/-- The combined state a measure's update_metric reads and writes: the
simulator, the task, and the task's measurement set. -/
structure State where
  sim : SimState
  task : TaskState
  measures : MeasureSet

/-- The measure keyed u stores v into its _metric slot (self._metric = v):
the entry keyed u in the measurement set now holds v; entries with other
keys are untouched. -/
def set_metric (ms : MeasureSet) (u : String) (v : MetricVal) : MeasureSet :=
  ms.map (fun e => if e.1 = u then (u, v) else e)

/-- get_metric of the measure keyed u in the set: the last stored _metric
value, found by uuid lookup, with no recomputation. -/
def get_metric (ms : MeasureSet) (u : String) : Option MetricVal :=
  ms.lookup u

/-- DistanceToTargetObject.cls_uuid, the measure's key in the set. -/
def DistanceToTargetObject.cls_uuid : String := "distance_to_object"

/-- NavPickReward.cls_uuid, the measure's key in the set. -/
def NavPickReward.cls_uuid : String := "navpick_reward"

/-- NavPickSuccess.cls_uuid, the measure's key in the set. -/
def NavPickSuccess.cls_uuid : String := "navpick_success"

/-- Modelled from the spec: check_measure_dependencies(measure_id,
required_ids) of the external Measurements class (habitat.core.embodied_task,
not part of this repository) fails with a DependencyError naming the first
missing id if any of required_ids is not present in the current measurement
set at the time it is invoked, and otherwise does nothing (spec section
4.1). -/
def check_measure_dependencies (ms : MeasureSet) (measure_id : String)
    (required : List String) : Except PyError Unit :=
  match required.find? (fun r => (ms.lookup r).isNone) with
  | some missing => .error (.dependencyError measure_id missing)
  | Option.none => .ok ()

/-- DistanceToTargetObject.update_metric: reads the end-effector translation,
the target index array and the scene positions from the simulator at call
time, and stores the L2 norm of scene_pos - ee_pos as its metric.  Out of
range indexing raises IndexError as in numpy. -/
noncomputable def DistanceToTargetObject.update_metric (s : State) :
    Except PyError State :=
  let ee_pos := s.sim.ee_translation
  match s.sim.target_idxs[s.task.target_object_index]? with
  | Option.none => .error .indexError
  | some i =>
    match s.sim.scene_pos[i]? with
    | Option.none => .error .indexError
    | some scene_pos =>
      .ok { s with measures :=
              (set_metric s.measures DistanceToTargetObject.cls_uuid
                (.num (l2_norm (sub3 scene_pos ee_pos)))) }

/-- DistanceToTargetObject.reset_metric: delegates to update_metric. -/
noncomputable def DistanceToTargetObject.reset_metric (s : State) :
    Except PyError State :=
  DistanceToTargetObject.update_metric s

/-- The NAV_PICK_REWARD configuration block of cfg_txt: the scaling factor
and the RearrangeReward penalty parameters.  The measure keeps the block in
self._config. -/
structure NavPickRewardConfig where
  SCALING_FACTOR : ℝ
  CONSTRAINT_VIOLATE_PEN : ℝ
  FORCE_PEN : ℝ
  MAX_FORCE_PEN : ℝ
  FORCE_END_PEN : ℝ

/-- Python unary minus applied to a _metric value: negates a float, treats
a bool as the int 1 or 0 and negates it, and raises TypeError on None. -/
def neg_metric : MetricVal → Except PyError MetricVal
  | .num x => .ok (.num (-x))
  | .bool b => .ok (.num (-(if b then (1 : ℝ) else 0)))
  | .unset => .error .typeError

/-- NavPickReward.update_metric: looks the DistanceToTargetObject measure up
in task.measurements.measures (KeyError if absent), reads its last metric
with get_metric, and stores the negation of that distance as its own
metric.  The body reads nothing from self._config: no scaling factor or
penalty is applied. -/
def NavPickReward.update_metric (_config : NavPickRewardConfig) (s : State) :
    Except PyError State :=
  match s.measures.lookup DistanceToTargetObject.cls_uuid with
  | Option.none => .error (.keyError DistanceToTargetObject.cls_uuid)
  | some ee_to_object_distance =>
    match neg_metric ee_to_object_distance with
    | .error e => .error e
    | .ok r =>
      .ok { s with measures :=
              (set_metric s.measures NavPickReward.cls_uuid r) }

/-- NavPickReward.reset_metric: first checks that DistanceToTargetObject is
present in the measurement set via check_measure_dependencies, then
delegates to update_metric. -/
def NavPickReward.reset_metric (_config : NavPickRewardConfig) (s : State) :
    Except PyError State :=
  match check_measure_dependencies s.measures NavPickReward.cls_uuid
      [DistanceToTargetObject.cls_uuid] with
  | .error e => .error e
  | .ok _ => NavPickReward.update_metric _config s

/-- NavPickSuccess.update_metric: reads the target object's absolute index
scene_obj_ids[task.target_object_index] (IndexError if out of range) and
stores whether it equals grasp_mgr.snap_idx.  In Python an int compares
unequal to None, so the metric is false while nothing is held. -/
def NavPickSuccess.update_metric (s : State) : Except PyError State :=
  match s.sim.scene_obj_ids[s.task.target_object_index]? with
  | Option.none => .error .indexError
  | some abs_targ_obj_idx =>
    .ok { s with measures :=
            (set_metric s.measures NavPickSuccess.cls_uuid
              (.bool (some abs_targ_obj_idx == s.sim.grasp_snap_idx))) }

/-- NavPickSuccess.reset_metric: delegates to update_metric. -/
def NavPickSuccess.reset_metric (s : State) : Except PyError State :=
  NavPickSuccess.update_metric s

/-- Modelled from numpy's documented behavior (an external collaborator):
np.random.randint(lo, hi) returns lo plus the generator draw reduced modulo
hi - lo, and raises ValueError when hi is not greater than lo.  The draw
argument stands for the pseudo-random source. -/
def np_random_randint (draw lo hi : ℕ) : Except PyError ℕ :=
  if hi ≤ lo then .error (.valueError "low >= high")
  else .ok (lo + draw % (hi - lo))

/-- NavPickTaskV1.reset: draws target_object_index with
np.random.randint(0, sim.get_n_targets()), then sets the robot base
position to a random navigable point (nav_point stands for the point the
external pathfinder returns).  The trailing super().reset(episode) call
belongs to the external RearrangeTask and is outside this embedding. -/
def NavPickTaskV1.reset (draw : ℕ) (nav_point : Vec3) (s : State) :
    Except PyError State :=
  match np_random_randint draw 0 s.sim.n_targets with
  | .error e => .error e
  | .ok idx =>
    .ok { s with
          task := { target_object_index := idx },
          sim := { s.sim with robot_base_pos := nav_point } }

/-- Modelled from the spec: the Episode Runner states NOT_STARTED, RUNNING
and DONE (spec section 4.6). -/
inductive RunnerState where
  | notStarted : RunnerState
  | running : RunnerState
  | done : RunnerState
deriving DecidableEq

/-- Modelled from the spec: an Environment as seen by the episode step loop
(habitat.Env is external to this repository).  Its episode_over flag
becomes true once steps_taken reaches the horizon; reset transitions
NOT_STARTED or DONE to RUNNING with a fresh step count; step is rejected
with a state-machine error unless the runner is RUNNING, and transitions to
DONE as soon as episode_over becomes true (spec sections 2 and 4.6). -/
structure EpisodeEnv where
  runner : RunnerState
  steps_taken : ℕ
  horizon : ℕ
deriving DecidableEq

/-- episode_over: true once the environment has taken horizon steps. -/
def EpisodeEnv.episode_over (e : EpisodeEnv) : Bool :=
  e.horizon ≤ e.steps_taken

/-- Modelled from the spec: Environment reset, transitioning to RUNNING
with a fresh step count. -/
def EpisodeEnv.reset (e : EpisodeEnv) : EpisodeEnv :=
  { e with runner := .running, steps_taken := 0 }

/-- Modelled from the spec: Environment step.  While RUNNING it advances
the step count and transitions to DONE once episode_over holds; in any
other runner state it is rejected with a state-machine error. -/
def EpisodeEnv.step (e : EpisodeEnv) : Except PyError EpisodeEnv :=
  if e.runner = RunnerState.running then
    let e1 : EpisodeEnv := { e with steps_taken := e.steps_taken + 1 }
    if e1.episode_over then .ok { e1 with runner := .done } else .ok e1
  else .error (.assertionError "Episode over, call reset before calling step")

/-- The episode step loop of the nav-pick demo: while not env.episode_over,
call env.step and increment count_steps.  fuel bounds the number of
iterations the model unfolds; the result is None when the loop has not
finished within fuel iterations. -/
def step_loop : ℕ → EpisodeEnv → ℕ →
    Option (Except PyError (EpisodeEnv × ℕ))
  | 0, _, _ => Option.none
  | fuel + 1, e, count_steps =>
    if e.episode_over then some (.ok (e, count_steps))
    else
      match e.step with
      | .error err => some (.error err)
      | .ok e1 => step_loop fuel e1 (count_steps + 1)

/-- Observable lifecycle events of the environment resource. -/
inductive ResourceEvent where
  | acquire : ResourceEvent
  | release : ResourceEvent
deriving DecidableEq

/-- Modelled from Python's with-statement semantics: with habitat.Env(...)
as env acquires the environment on entry and runs the environment's
cleanup on every exit path of the block, normal or exceptional
(try/finally desugaring).  The body is given as its event trace paired
with its outcome; the outcome itself is passed through unchanged. -/
def with_env {α : Type} (body : List ResourceEvent × α) :
    List ResourceEvent × α :=
  (ResourceEvent.acquire :: body.1 ++ [ResourceEvent.release], body.2)

/-- The nav-pick demo driver: with habitat.Env(...) as env around
env.reset() and the step loop.  Rendering and video calls inside the block
touch no environment resource and contribute no events; the body's outcome
is the step loop's outcome. -/
def nav_pick_demo (fuel : ℕ) (e : EpisodeEnv) :
    List ResourceEvent × Option (Except PyError (EpisodeEnv × ℕ)) :=
  with_env ([], step_loop fuel e.reset 0)

/-- The measurement configuration blocks of cfg_txt under TASK, in source
order, as key and TYPE pairs.  The key NAV_PICK_REWARD appears twice: once
with TYPE NavPickReward and once with TYPE NavPickSuccess. -/
def cfg_measure_entries : List (String × String) :=
  [("ROBOT_FORCE", "RobotForce"),
   ("FORCE_TERMINATE", "ForceTerminate"),
   ("ROBOT_COLLS", "RobotCollisions"),
   ("DISTANCE_TO_TARGET_OBJECT", "DistanceToTargetObject"),
   ("NAV_PICK_REWARD", "NavPickReward"),
   ("NAV_PICK_REWARD", "NavPickSuccess")]

/-- Modelled from YAML mapping semantics as implemented by the external
loader: when a mapping repeats a key, the last occurrence wins and the
earlier block is silently dropped. -/
def yaml_lookup (entries : List (String × String)) (k : String) :
    Option String :=
  entries.reverse.lookup k

/-- The MEASUREMENTS list of cfg_txt, naming the configuration block of
each measure the task instantiates, in order.  NAV_PICK_REWARD is listed
twice. -/
def cfg_MEASUREMENTS : List String :=
  ["ROBOT_FORCE", "FORCE_TERMINATE", "ROBOT_COLLS",
   "DISTANCE_TO_TARGET_OBJECT", "NAV_PICK_REWARD", "NAV_PICK_REWARD"]

/-- Modelled from the spec: the registry maps each measure TYPE string to
the registered measure class, and the measure's key in the set is its
uuid (spec sections 4.2 and the glossary).  For the three measures defined
in this file the uuids are their cls_uuid values; the framework measures
named in cfg_txt live outside this repository and are given distinct
placeholder uuids. -/
def registry_uuid (ty : String) : String :=
  if ty = "DistanceToTargetObject" then DistanceToTargetObject.cls_uuid
  else if ty = "NavPickReward" then NavPickReward.cls_uuid
  else if ty = "NavPickSuccess" then NavPickSuccess.cls_uuid
  else if ty = "RobotForce" then "robot_force"
  else if ty = "ForceTerminate" then "force_terminate"
  else if ty = "RobotCollisions" then "robot_collisions"
  else ty

/-- The uuids of the measures the nav-pick task configuration instantiates:
each name in MEASUREMENTS is resolved to its configuration block (YAML
last-wins lookup), whose TYPE is resolved through the registry to the
measure's uuid.  An unresolvable name yields no uuid. -/
def cfg_measure_uuids : List String :=
  cfg_MEASUREMENTS.filterMap
    (fun name => (yaml_lookup cfg_measure_entries name).map registry_uuid)

/-- Modelled from the spec: the measurement set constructor inserts the
measures one by one, keyed by uuid, and fails at construction time when a
uuid is already present instead of overwriting it (spec sections 3 and 8:
all ids are unique; registering two measurements with the same uuid must
fail at construction time). -/
def build_measurement_set (acc : List String) :
    List String → Except PyError (List String)
  | [] => .ok acc
  | u :: rest =>
    if acc.contains u then
      .error (.assertionError ("Cannot add the same measure twice: " ++ u))
    else build_measurement_set (acc ++ [u]) rest

/-- The 3-vector viewed as a point of the Euclidean space on Fin 3 with
the L2 metric, used to state that l2_norm is the Euclidean distance. -/
noncomputable def vec3_to_e3 (v : Vec3) : EuclideanSpace ℝ (Fin 3) :=
  (WithLp.equiv 2 (Fin 3 → ℝ)).symm ![v.1, v.2.1, v.2.2]

/-- A minimal simulator state for concrete instantiations: no targets and
nothing grasped. -/
noncomputable def sim_empty : SimState :=
  { ee_translation := (0, 0, 0), target_idxs := [], scene_pos := [],
    scene_obj_ids := [], grasp_snap_idx := Option.none, n_targets := 0,
    robot_base_pos := (0, 0, 0) }

/-- A small fully populated simulator state for concrete instantiations:
one target at scene position (1, 2, 2), end-effector at the origin, and
the object with absolute id 5 currently grasped. -/
noncomputable def sim_demo : SimState :=
  { ee_translation := (0, 0, 0), target_idxs := [0], scene_pos := [(1, 2, 2)],
    scene_obj_ids := [5], grasp_snap_idx := some 5, n_targets := 1,
    robot_base_pos := (0, 0, 0) }

/-- The NAV_PICK_REWARD configuration values of cfg_txt: SCALING_FACTOR 0.1
and the RearrangeReward penalty parameters. -/
noncomputable def navpick_cfg : NavPickRewardConfig :=
  { SCALING_FACTOR := 1 / 10, CONSTRAINT_VIOLATE_PEN := 10,
    FORCE_PEN := 1 / 1000, MAX_FORCE_PEN := 1, FORCE_END_PEN := 10 }

/-- A state whose measurement set lacks the DistanceToTargetObject measure:
only the NavPickReward measure, with its metric still unset, is present. -/
noncomputable def state_no_distance : State :=
  { sim := sim_empty, task := { target_object_index := 0 },
    measures := [(NavPickReward.cls_uuid, MetricVal.unset)] }

/-- A state whose DistanceToTargetObject measure last stored the metric
2.5, as in the end-to-end scenario of the spec. -/
noncomputable def state_dist25 : State :=
  { sim := sim_demo, task := { target_object_index := 0 },
    measures := [(DistanceToTargetObject.cls_uuid, MetricVal.num (5 / 2)),
                 (NavPickReward.cls_uuid, MetricVal.unset)] }

/-- The state state_dist25 after NavPickReward.update_metric: the reward
measure stores the plain negation -2.5 of the prerequisite distance. -/
noncomputable def state_dist25_updated : State :=
  { sim := sim_demo, task := { target_object_index := 0 },
    measures := [(DistanceToTargetObject.cls_uuid, MetricVal.num (5 / 2)),
                 (NavPickReward.cls_uuid, MetricVal.num (-(5 / 2)))] }

/-- A state over sim_demo holding all three measures of this file with
their metrics still unset. -/
noncomputable def state_demo : State :=
  { sim := sim_demo, task := { target_object_index := 0 },
    measures := [(DistanceToTargetObject.cls_uuid, MetricVal.unset),
                 (NavPickReward.cls_uuid, MetricVal.unset),
                 (NavPickSuccess.cls_uuid, MetricVal.unset)] }

/-- state_demo after DistanceToTargetObject.update_metric: the distance
measure stores the L2 norm of (1, 2, 2) minus the origin. -/
noncomputable def state_demo_dist : State :=
  { sim := sim_demo, task := { target_object_index := 0 },
    measures :=
      [(DistanceToTargetObject.cls_uuid,
         MetricVal.num (l2_norm (sub3 ((1 : ℝ), (2 : ℝ), (2 : ℝ))
           ((0 : ℝ), (0 : ℝ), (0 : ℝ))))),
       (NavPickReward.cls_uuid, MetricVal.unset),
       (NavPickSuccess.cls_uuid, MetricVal.unset)] }

/-- state_demo_dist after NavPickReward.update_metric: the reward measure
stores the negated distance. -/
noncomputable def state_demo_reward : State :=
  { sim := sim_demo, task := { target_object_index := 0 },
    measures :=
      [(DistanceToTargetObject.cls_uuid,
         MetricVal.num (l2_norm (sub3 ((1 : ℝ), (2 : ℝ), (2 : ℝ))
           ((0 : ℝ), (0 : ℝ), (0 : ℝ))))),
       (NavPickReward.cls_uuid,
         MetricVal.num (-(l2_norm (sub3 ((1 : ℝ), (2 : ℝ), (2 : ℝ))
           ((0 : ℝ), (0 : ℝ), (0 : ℝ)))))),
       (NavPickSuccess.cls_uuid, MetricVal.unset)] }

/-- Looking up the uuid u after the measure keyed u stored v: the lookup
returns v exactly when an entry keyed u was present. -/
theorem lookup_set_metric_self (ms : MeasureSet) (u : String) (v : MetricVal) :
    List.lookup u (set_metric ms u v) = (List.lookup u ms).map (fun _ => v) := by
  induction ms with
  | nil => rfl
  | cons e rest ih =>
    obtain ⟨k, b⟩ := e
    simp only [set_metric, List.map_cons] at ih ⊢
    by_cases h : k = u
    · subst h
      rw [if_pos rfl]
      simp [List.lookup_cons]
    · rw [if_neg h]
      rw [List.lookup_cons, List.lookup_cons]
      have hbeq : (u == k) = false := beq_eq_false_iff_ne.mpr (Ne.symm h)
      rw [hbeq]
      exact ih

/-- C2: for every measurement set from which the DistanceToTargetObject
measure is absent, NavPickReward.reset_metric raises DependencyError from
the dependency check that runs before update_metric, and never produces a
state (so no default metric such as zero is stored). -/
theorem navpick_reward_reset_dependency_error (cfg : NavPickRewardConfig)
    (s : State)
    (h : get_metric s.measures DistanceToTargetObject.cls_uuid = Option.none) :
    NavPickReward.reset_metric cfg s =
      .error (.dependencyError NavPickReward.cls_uuid
        DistanceToTargetObject.cls_uuid) ∧
    ∀ t : State, NavPickReward.reset_metric cfg s ≠ .ok t := by
  simp only [get_metric] at h
  have hmain : NavPickReward.reset_metric cfg s =
      .error (.dependencyError NavPickReward.cls_uuid
        DistanceToTargetObject.cls_uuid) := by
    unfold NavPickReward.reset_metric check_measure_dependencies
    simp [List.find?, h]
  refine ⟨hmain, ?_⟩
  intro t ht
  rw [hmain] at ht
  cases ht

/-- Witness for C2: on the concrete state whose measurement set holds only
the NavPickReward measure, reset_metric raises DependencyError. -/
theorem navpick_reward_reset_dependency_error_witness :
    NavPickReward.reset_metric navpick_cfg state_no_distance =
      .error (.dependencyError NavPickReward.cls_uuid
        DistanceToTargetObject.cls_uuid) :=
  (navpick_reward_reset_dependency_error navpick_cfg state_no_distance rfl).1

/-- C4: for each measure defined in this file and every state, reset_metric
is exactly an update_metric call: the two agree on the produced state, so
get_metric after reset_metric returns what an immediate update_metric call
would produce.  For NavPickReward the prerequisite measure must be present,
or reset_metric raises instead of computing. -/
theorem reset_metric_delegates (cfg : NavPickRewardConfig) (s : State)
    (h : (get_metric s.measures DistanceToTargetObject.cls_uuid).isSome) :
    DistanceToTargetObject.reset_metric s =
      DistanceToTargetObject.update_metric s ∧
    NavPickSuccess.reset_metric s = NavPickSuccess.update_metric s ∧
    NavPickReward.reset_metric cfg s = NavPickReward.update_metric cfg s := by
  refine ⟨rfl, rfl, ?_⟩
  simp only [get_metric] at h
  obtain ⟨v, hv⟩ := Option.isSome_iff_exists.mp h
  unfold NavPickReward.reset_metric check_measure_dependencies
  simp [List.find?, hv]

/-- Witness for C4: the three reset_metric calls on the concrete state
state_demo each agree with the corresponding update_metric call. -/
theorem reset_metric_delegates_witness :
    DistanceToTargetObject.reset_metric state_demo =
      DistanceToTargetObject.update_metric state_demo ∧
    NavPickSuccess.reset_metric state_demo =
      NavPickSuccess.update_metric state_demo ∧
    NavPickReward.reset_metric navpick_cfg state_demo =
      NavPickReward.update_metric navpick_cfg state_demo :=
  reset_metric_delegates navpick_cfg state_demo rfl

/-- C1 (amended): with the prerequisite DistanceToTargetObject measure's
last metric d, NavPickReward.update_metric stores the plain negation -d,
whatever the configured scaling factor and penalties are: with d = 2.5 the
metric is -2.5, not the scaled -0.25. -/
theorem navpick_reward_update_neg_distance (cfg : NavPickRewardConfig)
    (s : State) (d : ℝ)
    (h : get_metric s.measures DistanceToTargetObject.cls_uuid =
      some (MetricVal.num d)) :
    NavPickReward.update_metric cfg s =
      .ok { s with measures :=
        (set_metric s.measures NavPickReward.cls_uuid (MetricVal.num (-d))) } := by
  simp only [get_metric] at h
  unfold NavPickReward.update_metric
  rw [h]
  rfl

/-- Witness for C1 (amended): on the concrete state whose distance metric
is 2.5 and with SCALING_FACTOR 0.1, update_metric stores -2.5. -/
theorem navpick_reward_update_neg_distance_witness :
    NavPickReward.update_metric navpick_cfg state_dist25 =
      .ok { state_dist25 with measures :=
        (set_metric state_dist25.measures NavPickReward.cls_uuid
          (MetricVal.num (-(5 / 2)))) } :=
  navpick_reward_update_neg_distance navpick_cfg state_dist25 (5 / 2) rfl

/-- Counterexample to C1 as stated: with the prerequisite metric 2.5 and
SCALING_FACTOR 0.1 with no penalties, NavPickReward.update_metric stores
-2.5; the stored metric is not -(0.1 * 2.5) = -0.25. -/
theorem navpick_reward_scaling_counterexample :
    NavPickReward.update_metric navpick_cfg state_dist25 =
      .ok state_dist25_updated ∧
    get_metric state_dist25_updated.measures NavPickReward.cls_uuid =
      some (MetricVal.num (-(5 / 2))) ∧
    ¬ get_metric state_dist25_updated.measures NavPickReward.cls_uuid =
      some (MetricVal.num (-(navpick_cfg.SCALING_FACTOR * (5 / 2)))) := by
  refine ⟨rfl, rfl, ?_⟩
  intro h
  have h1 : some (MetricVal.num (-(5 / 2 : ℝ))) =
      some (MetricVal.num (-(navpick_cfg.SCALING_FACTOR * (5 / 2)))) := by
    rw [← h]
    rfl
  injection h1 with h2
  injection h2 with h3
  rw [show navpick_cfg.SCALING_FACTOR = 1 / 10 from rfl] at h3
  norm_num at h3

/-- C5: NavPickSuccess.update_metric stores true exactly when the target
object's absolute index scene_obj_ids[target_object_index] equals the
grasp manager's snapped object id; the stored value is recomputed from the
current simulator and task state on every call, independently of the
measurement set's previous contents, so it returns to false as soon as the
equality stops holding. -/
theorem navpick_success_predicate (s : State) (abs_targ_obj_idx : ℤ)
    (h : s.sim.scene_obj_ids[s.task.target_object_index]? =
      some abs_targ_obj_idx) :
    NavPickSuccess.update_metric s =
      .ok { s with measures :=
        (set_metric s.measures NavPickSuccess.cls_uuid
          (MetricVal.bool (some abs_targ_obj_idx == s.sim.grasp_snap_idx))) } ∧
    ((some abs_targ_obj_idx == s.sim.grasp_snap_idx) = true ↔
      s.sim.grasp_snap_idx = some abs_targ_obj_idx) ∧
    (∀ t : State, t.sim = s.sim → t.task = s.task →
      NavPickSuccess.update_metric t =
        .ok { t with measures :=
          (set_metric t.measures NavPickSuccess.cls_uuid
            (MetricVal.bool (some abs_targ_obj_idx == s.sim.grasp_snap_idx))) }) := by
  refine ⟨?_, ?_, ?_⟩
  · unfold NavPickSuccess.update_metric
    rw [h]
  · constructor
    · intro hb
      exact (beq_iff_eq.mp hb).symm
    · intro he
      rw [he]
      simp
  · intro t hsim htask
    unfold NavPickSuccess.update_metric
    rw [hsim, htask, h]

/-- Witness for C5: on the concrete state state_demo the grasped id equals
the target's absolute id 5, so the stored predicate value is true. -/
theorem navpick_success_predicate_witness :
    ((some (5 : ℤ) == state_demo.sim.grasp_snap_idx) = true ↔
      state_demo.sim.grasp_snap_idx = some 5) :=
  (navpick_success_predicate state_demo 5 rfl).2.1

/-- C7: on every update_metric call DistanceToTargetObject stores the L2
norm of the difference between the target object's current scene position
and the end-effector's current translation, both read from the simulator
state passed to the call; the norm is the Euclidean distance between the
two points, it is invariant under swapping them, and the stored value is a
function of the current simulator and task state only, independent of the
measurement set's previous contents (no caching across steps). -/
theorem distance_to_target_object_update (s : State) (i : ℕ)
    (scene_pos : Vec3)
    (h1 : s.sim.target_idxs[s.task.target_object_index]? = some i)
    (h2 : s.sim.scene_pos[i]? = some scene_pos) :
    DistanceToTargetObject.update_metric s =
      .ok { s with measures :=
        (set_metric s.measures DistanceToTargetObject.cls_uuid
          (MetricVal.num (l2_norm (sub3 scene_pos s.sim.ee_translation)))) } ∧
    (∀ p q : Vec3, l2_norm (sub3 p q) = dist (vec3_to_e3 p) (vec3_to_e3 q)) ∧
    (∀ p q : Vec3, l2_norm (sub3 p q) = l2_norm (sub3 q p)) ∧
    (∀ t : State, t.sim = s.sim → t.task = s.task →
      DistanceToTargetObject.update_metric t =
        .ok { t with measures :=
          (set_metric t.measures DistanceToTargetObject.cls_uuid
            (MetricVal.num (l2_norm (sub3 scene_pos s.sim.ee_translation)))) }) := by
  refine ⟨?_, ?_, ?_, ?_⟩
  · simp only [DistanceToTargetObject.update_metric, h1, h2]
  · intro p q
    rw [EuclideanSpace.dist_eq]
    unfold l2_norm vec3_to_e3 sub3
    simp [Fin.sum_univ_three, Real.dist_eq, sq_abs]
  · intro p q
    unfold l2_norm sub3
    ring_nf
  · intro t hsim htask
    simp only [DistanceToTargetObject.update_metric, hsim, htask, h1, h2]

/-- Witness for C7: on the concrete state state_demo, update_metric stores
the L2 norm of (1, 2, 2) minus the origin, giving state_demo_dist. -/
theorem distance_to_target_object_update_witness :
    DistanceToTargetObject.update_metric state_demo =
      .ok { state_demo with measures :=
        (set_metric state_demo.measures DistanceToTargetObject.cls_uuid
          (MetricVal.num (l2_norm (sub3 ((1 : ℝ), (2 : ℝ), (2 : ℝ))
            state_demo.sim.ee_translation)))) } :=
  (distance_to_target_object_update state_demo 0
    ((1 : ℝ), (2 : ℝ), (2 : ℝ)) rfl rfl).1

/-- A successful measurement set construction starting from a duplicate
free accumulator yields pairwise distinct uuids for the accumulator
together with the inserted list. -/
theorem build_measurement_set_ok_nodup (l : List String) :
    ∀ (acc ms : List String), acc.Nodup →
      build_measurement_set acc l = .ok ms → (acc ++ l).Nodup := by
  induction l with
  | nil =>
    intro acc ms hacc _
    simpa using hacc
  | cons u rest ih =>
    intro acc ms hacc h
    unfold build_measurement_set at h
    split at h
    · cases h
    · rename_i hc
      have hu : u ∉ acc := by
        intro hmem
        exact hc (List.elem_eq_true_of_mem hmem)
      have hnd : (acc ++ [u]).Nodup := by
        rw [List.nodup_append]
        refine ⟨hacc, List.nodup_singleton u, ?_⟩
        intro a ha hb
        rw [List.mem_singleton] at hb
        subst hb
        exact hu ha
      have := ih (acc ++ [u]) ms hnd h
      simpa [List.append_assoc] using this

/-- C3: a measurement set construction that sees the same uuid twice fails
at construction time instead of overwriting: construction can succeed only
on duplicate free uuid lists.  For the nav-pick configuration, the
duplicate NAV_PICK_REWARD key of cfg_txt resolves (YAML last-wins) to the
NavPickSuccess block, both NAV_PICK_REWARD entries of MEASUREMENTS
therefore resolve to the uuid navpick_success, and building the set from
cfg_txt is rejected with an error naming that uuid. -/
theorem duplicate_measure_uuid_rejected :
    (∀ uuids : List String, ¬ uuids.Nodup →
      ∀ ms : List String, build_measurement_set [] uuids ≠ .ok ms) ∧
    yaml_lookup cfg_measure_entries "NAV_PICK_REWARD" = some "NavPickSuccess" ∧
    cfg_measure_uuids =
      ["robot_force", "force_terminate", "robot_collisions",
       "distance_to_object", "navpick_success", "navpick_success"] ∧
    build_measurement_set [] cfg_measure_uuids =
      .error (.assertionError
        "Cannot add the same measure twice: navpick_success") := by
  refine ⟨?_, rfl, rfl, rfl⟩
  intro uuids hnd ms h
  exact hnd (by simpa using
    build_measurement_set_ok_nodup uuids [] ms List.nodup_nil h)

/-- Witness for C3: building a measurement set from an explicit duplicated
uuid pair does not succeed. -/
theorem duplicate_measure_uuid_rejected_witness :
    build_measurement_set [] ["navpick_success", "navpick_success"] ≠
      .ok ["navpick_success", "navpick_success"] :=
  duplicate_measure_uuid_rejected.1
    ["navpick_success", "navpick_success"] (by decide)
    ["navpick_success", "navpick_success"]

/-- C6: the step loop never calls step once episode_over holds, and for an
environment whose episode_over becomes true after exactly 5 steps the loop
performs exactly 5 step calls (count_steps = 5), the runner is then DONE,
and a further step call is rejected with the state-machine error. -/
theorem episode_runner_five_steps :
    (∀ (fuel count_steps : ℕ) (e : EpisodeEnv), e.episode_over = true →
      step_loop (fuel + 1) e count_steps = some (.ok (e, count_steps))) ∧
    step_loop 6 (EpisodeEnv.reset ⟨RunnerState.notStarted, 0, 5⟩) 0 =
      some (.ok (⟨RunnerState.done, 5, 5⟩, 5)) ∧
    EpisodeEnv.step ⟨RunnerState.done, 5, 5⟩ =
      .error (.assertionError
        "Episode over, call reset before calling step") := by
  refine ⟨?_, rfl, rfl⟩
  intro fuel count_steps e h
  simp [step_loop, h]

/-- Witness for C6: a loop entered on an already finished environment
returns at once without a step call, keeping its step count. -/
theorem episode_runner_five_steps_witness :
    step_loop 1 ⟨RunnerState.done, 5, 5⟩ 7 =
      some (.ok (⟨RunnerState.done, 5, 5⟩, 7)) :=
  episode_runner_five_steps.1 0 7 ⟨RunnerState.done, 5, 5⟩ rfl

/-- C8: the environment acquired by the with-block is released on every
exit path: for every body, normal or exceptional, the release event is in
the with-block's trace, in particular for every run of the nav-pick demo
driver. -/
theorem env_released_on_every_exit :
    (∀ (α : Type) (body : List ResourceEvent × α),
      ResourceEvent.release ∈ (with_env body).1) ∧
    (∀ (tr : List ResourceEvent) (err : PyError),
      ResourceEvent.release ∈
        (with_env (tr, (Except.error err : Except PyError Unit))).1) ∧
    (∀ (fuel : ℕ) (e : EpisodeEnv),
      ResourceEvent.release ∈ (nav_pick_demo fuel e).1) := by
  refine ⟨?_, ?_, ?_⟩
  · intro α body
    simp [with_env]
  · intro tr err
    simp [with_env]
  · intro fuel e
    simp [nav_pick_demo, with_env]

/-- C9: after every successful NavPickTaskV1.reset on a simulator with at
least one target, target_object_index is a valid target index: it is below
the simulator's number of targets, which reset leaves unchanged. -/
theorem navpick_task_reset_index_valid (draw : ℕ) (nav_point : Vec3)
    (s t : State) (hn : 0 < s.sim.n_targets)
    (h : NavPickTaskV1.reset draw nav_point s = .ok t) :
    t.task.target_object_index < t.sim.n_targets ∧
    t.sim.n_targets = s.sim.n_targets := by
  unfold NavPickTaskV1.reset np_random_randint at h
  rw [if_neg (by omega)] at h
  cases h
  refine ⟨?_, rfl⟩
  simpa using Nat.mod_lt draw hn

/-- Witness for C9: resetting the task over the one-target simulator
sim_demo yields a valid target index. -/
theorem navpick_task_reset_index_valid_witness :
    state_demo.task.target_object_index < state_demo.sim.n_targets ∧
    state_demo.sim.n_targets = state_demo.sim.n_targets :=
  navpick_task_reset_index_valid 3 ((0 : ℝ), (0 : ℝ), (0 : ℝ))
    state_demo state_demo (by decide) rfl

/-- C10: after a DistanceToTargetObject.update_metric call followed by a
NavPickReward.update_metric call, the reward metric read back from the
measurement set is non-positive: it is the negation of the freshly stored
distance, which is an L2 norm and hence non-negative. -/
theorem navpick_reward_metric_nonpos (cfg : NavPickRewardConfig)
    (s s1 s2 : State) (r : ℝ)
    (h1 : DistanceToTargetObject.update_metric s = .ok s1)
    (h2 : NavPickReward.update_metric cfg s1 = .ok s2)
    (h3 : get_metric s2.measures NavPickReward.cls_uuid =
      some (MetricVal.num r)) :
    r ≤ 0 := by
  obtain ⟨i, hi, scene_pos, hsp, rfl⟩ :
      ∃ i, s.sim.target_idxs[s.task.target_object_index]? = some i ∧
      ∃ scene_pos, s.sim.scene_pos[i]? = some scene_pos ∧
      s1 = { s with measures :=
        (set_metric s.measures DistanceToTargetObject.cls_uuid
          (MetricVal.num (l2_norm (sub3 scene_pos s.sim.ee_translation)))) } := by
    unfold DistanceToTargetObject.update_metric at h1
    split at h1
    · cases h1
    · rename_i i hi
      split at h1
      · cases h1
      · rename_i sp hsp
        cases h1
        exact ⟨i, hi, sp, hsp, rfl⟩
  unfold NavPickReward.update_metric at h2
  rw [lookup_set_metric_self] at h2
  split at h2
  · cases h2
  · rename_i v hv
    obtain ⟨w, hw, hveq⟩ := Option.map_eq_some'.mp hv
    subst hveq
    cases h2
    simp only [get_metric] at h3
    rw [lookup_set_metric_self] at h3
    obtain ⟨w2, hw2, hreq⟩ := Option.map_eq_some'.mp h3
    injection hreq with hreq
    rw [← hreq]
    unfold l2_norm
    simp [Real.sqrt_nonneg]

/-- Witness for C10: running the distance measure and then the reward
measure on the concrete state state_demo yields the non-positive reward
metric, the negated distance from the origin to (1, 2, 2). -/
theorem navpick_reward_metric_nonpos_witness :
    -(l2_norm (sub3 ((1 : ℝ), (2 : ℝ), (2 : ℝ))
      ((0 : ℝ), (0 : ℝ), (0 : ℝ)))) ≤ 0 :=
  navpick_reward_metric_nonpos navpick_cfg state_demo state_demo_dist
    state_demo_reward
    (-(l2_norm (sub3 ((1 : ℝ), (2 : ℝ), (2 : ℝ)) ((0 : ℝ), (0 : ℝ), (0 : ℝ)))))
    rfl rfl rfl

end Habitat2Quickstart
